import Mathlib

/-!
# Verification of the minimal-timer Dual-Clock Timer Engine

Shallow embedding of the timer engine of `siimplelab/minimal-timer`:
the time codec (`formatTime` / `parseTime` in script.js), the controller
state machine (script.js), and the high-precision timing worker
(worker.js).  Times are modelled as integers (milliseconds); DOM and
localStorage effects are modelled as explicit inputs/outputs.
-/

namespace MinimalTimer

/-! ## Time codec (script.js, `formatTime` / `parseTime` / `msToString`)

Constants from script.js. -/

def MS_PER_SECOND : Nat := 1000
def MS_PER_MINUTE : Nat := 60 * MS_PER_SECOND
def MS_PER_HOUR : Nat := 60 * MS_PER_MINUTE
def CENTISECONDS_PER_SECOND : Nat := 100

/-- `String(n)`: decimal digit characters of a natural number. -/
def natToChars (n : Nat) : List Char := Nat.toDigits 10 n

/-- `String.prototype.padStart(2, '0')` on a digit string. -/
def padStart2 (s : List Char) : List Char :=
  List.replicate (2 - s.length) '0' ++ s

/-- `formatTime(ms)` (script.js lines 95-110): split a millisecond count
into zero-padded `hh`, `mm`, `ss`, `cc` components. -/
structure TimeParts where
  hh : List Char
  mm : List Char
  ss : List Char
  cc : List Char
deriving DecidableEq, Repr

def formatTime (ms : Nat) : TimeParts :=
  let totalCs := ms / 10
  let cs := totalCs % CENTISECONDS_PER_SECOND
  let totalSeconds := totalCs / CENTISECONDS_PER_SECOND
  let seconds := totalSeconds % 60
  let totalMinutes := totalSeconds / 60
  let minutes := totalMinutes % 60
  let hours := totalMinutes / 60
  { hh := padStart2 (natToChars hours)
    mm := padStart2 (natToChars minutes)
    ss := padStart2 (natToChars seconds)
    cc := padStart2 (natToChars cs) }

/-- `msToString(ms)` (script.js lines 143-146): `hh:mm:ss.cc`. -/
def msToChars (ms : Nat) : List Char :=
  let p := formatTime ms
  p.hh ++ ':' :: (p.mm ++ ':' :: (p.ss ++ '.' :: p.cc))

def msToString (ms : Nat) : String := ⟨msToChars ms⟩

/-- `\d` of the regular expression in `parseTime`. -/
def isDigitChar (c : Char) : Bool := '0' ≤ c && c ≤ '9'

/-- Whitespace removed by `String.prototype.trim()`. -/
def isWsChar (c : Char) : Bool :=
  c = ' ' || c = '\t' || c = '\n' || c = '\r' ||
  c = (Char.ofNat 11) || c = (Char.ofNat 12)

/-- `str.trim()`: drop leading and trailing whitespace. -/
def trimChars (cs : List Char) : List Char :=
  ((cs.dropWhile isWsChar).reverse.dropWhile isWsChar).reverse

/-- Split a character list at every occurrence of `sep` (the
decomposition performed by matching `(...) : (...) : (...) \. (...)`). -/
def splitOnChar (sep : Char) : List Char → List (List Char)
  | [] => [[]]
  | c :: cs =>
    let r := splitOnChar sep cs
    if c = sep then [] :: r
    else (c :: r.headD []) :: r.tail

/-- One capture group `\d{1,2}`: one or two digit characters. -/
def okGroup (g : List Char) : Bool :=
  (g.length = 1 || g.length = 2) && g.all isDigitChar

/-- `parseInt(s, 10)` on a digit string. -/
def decVal (g : List Char) : Nat :=
  g.foldl (fun n c => n * 10 + (c.toNat - 48)) 0

/-- The four captured groups of the pattern: check `\d{1,2}` on each,
`parseInt` them, reject out-of-range minutes/seconds/centiseconds,
otherwise combine into milliseconds (script.js lines 120-137). -/
def parseGroups (a b c d : List Char) : Option Nat :=
  if okGroup a && okGroup b && okGroup c && okGroup d then
    let hours := decVal a
    let minutes := decVal b
    let seconds := decVal c
    let centiseconds := decVal d
    if minutes ≥ 60 || seconds ≥ 60 || centiseconds ≥ 100 then none
    else some (hours * MS_PER_HOUR + minutes * MS_PER_MINUTE +
               seconds * MS_PER_SECOND + centiseconds * 10)
  else none

/-- Split the part after the second `:` at `.` into seconds and
centisecond groups. -/
def parseCD (a b r : List Char) : Option Nat :=
  match splitOnChar '.' r with
  | [c, d] => parseGroups a b c d
  | _ => none

/-- `parseTime(str)` body after `trim` (script.js lines 116-138): match
`^(\d{1,2}):(\d{1,2}):(\d{1,2})\.(\d{1,2})$`, reject out-of-range
components, otherwise combine into milliseconds. -/
def parseChars (cs : List Char) : Option Nat :=
  match splitOnChar ':' cs with
  | [a, b, r] => parseCD a b r
  | _ => none

/-- `parseTime(str)` (script.js lines 116-138), `trim` included. -/
def parseTime (s : String) : Option Nat := parseChars (trimChars s.data)

/-! ### Codec lemmas -/

theorem splitOnChar_ne_nil (sep : Char) : ∀ l : List Char, splitOnChar sep l ≠ []
  | [] => by simp [splitOnChar]
  | c :: cs => by
    simp only [splitOnChar]
    by_cases hc : c = sep <;> simp [hc]

theorem splitOnChar_sepFree (sep : Char) :
    ∀ l : List Char, sep ∉ l → splitOnChar sep l = [l]
  | [], _ => rfl
  | c :: cs, h => by
    have hc : ¬ c = sep := fun e => h (e ▸ List.mem_cons_self c cs)
    have ih := splitOnChar_sepFree sep cs (fun m => h (List.mem_cons_of_mem c m))
    simp [splitOnChar, hc, ih]

theorem splitOnChar_append (sep : Char) :
    ∀ (a rest : List Char), sep ∉ a →
      splitOnChar sep (a ++ sep :: rest) = a :: splitOnChar sep rest
  | [], rest, _ => by simp [splitOnChar]
  | c :: a', rest, h => by
    have hc : ¬ c = sep := fun e => h (e ▸ List.mem_cons_self c a')
    have ih := splitOnChar_append sep a' rest (fun m => h (List.mem_cons_of_mem c m))
    simp [splitOnChar, hc, ih]

/-- Re-join the pieces produced by `splitOnChar`. -/
def unsplit (sep : Char) : List (List Char) → List Char
  | [] => []
  | [g] => g
  | g :: gs => g ++ sep :: unsplit sep gs

theorem unsplit_splitOnChar (sep : Char) :
    ∀ l : List Char, unsplit sep (splitOnChar sep l) = l
  | [] => rfl
  | c :: cs => by
    have ih := unsplit_splitOnChar sep cs
    have hne := splitOnChar_ne_nil sep cs
    simp only [splitOnChar]
    by_cases hc : c = sep
    · subst hc
      simp only [if_pos rfl]
      cases hr : splitOnChar c cs with
      | nil => exact absurd hr hne
      | cons g gs =>
        rw [hr] at ih
        simp [unsplit, ih]
    · simp only [if_neg hc]
      cases hr : splitOnChar sep cs with
      | nil => exact absurd hr hne
      | cons g gs =>
        rw [hr] at ih
        cases gs with
        | nil =>
          simp only [unsplit] at ih ⊢
          simp [ih]
        | cons g2 gs2 =>
          simp only [unsplit] at ih ⊢
          simp [← ih]

theorem sepFree_of_mem_splitOnChar (sep : Char) :
    ∀ (l : List Char) (g : List Char), g ∈ splitOnChar sep l → sep ∉ g
  | [], g, hg => by
    simp [splitOnChar] at hg
    subst hg; exact List.not_mem_nil sep
  | c :: cs, g, hg => by
    have hne := splitOnChar_ne_nil sep cs
    have ih := sepFree_of_mem_splitOnChar sep cs
    simp only [splitOnChar] at hg
    by_cases hc : c = sep
    · rw [if_pos hc] at hg
      rcases List.mem_cons.mp hg with h | h
      · subst h; exact List.not_mem_nil sep
      · exact ih g h
    · rw [if_neg hc] at hg
      cases hr : splitOnChar sep cs with
      | nil => exact absurd hr hne
      | cons g0 gs =>
        rw [hr] at hg
        simp only [List.headD, List.tail] at hg
        rcases List.mem_cons.mp hg with h | h
        · subst h
          intro hm
          rcases List.mem_cons.mp hm with h' | h'
          · exact hc h'.symm
          · exact ih g0 (hr ▸ List.mem_cons_self g0 gs) h'
        · exact ih g (hr ▸ List.mem_cons_of_mem g0 h)

theorem not_mem_of_all_digits {sep : Char} {g : List Char}
    (hall : g.all isDigitChar = true) (hsep : isDigitChar sep = false) : sep ∉ g := by
  intro hm
  have := List.all_eq_true.mp hall sep hm
  rw [hsep] at this
  exact Bool.false_ne_true this

/-- Facts about a two-character zero-padded decimal group, for every
value below 100 (checked by evaluation). -/
theorem padStart2_group : ∀ n < 100,
    okGroup (padStart2 (natToChars n)) = true ∧
    decVal (padStart2 (natToChars n)) = n ∧
    (padStart2 (natToChars n)).all isDigitChar = true ∧
    (padStart2 (natToChars n)).all (fun c => !isWsChar c) = true := by
  decide

theorem dropWhile_eq_self_of_none {p : Char → Bool} :
    ∀ l : List Char, (∀ c ∈ l, p c = false) → l.dropWhile p = l
  | [], _ => rfl
  | c :: cs, h => by
    simp [List.dropWhile, h c (List.mem_cons_self c cs)]

theorem trimChars_eq_self {l : List Char}
    (h : ∀ c ∈ l, isWsChar c = false) : trimChars l = l := by
  unfold trimChars
  rw [dropWhile_eq_self_of_none l h]
  rw [dropWhile_eq_self_of_none l.reverse (fun c hc => h c (List.mem_reverse.mp hc))]
  exact List.reverse_reverse l

/-- Declarative reading of the strict pattern
`^(\d{1,2}):(\d{1,2}):(\d{1,2})\.(\d{1,2})$` with the range checks of
`parseTime` and the value it computes. -/
def PatternSpec (cs : List Char) (v : Nat) : Prop :=
  ∃ A B C D : List Char,
    cs = A ++ ':' :: (B ++ ':' :: (C ++ '.' :: D)) ∧
    okGroup A = true ∧ okGroup B = true ∧ okGroup C = true ∧ okGroup D = true ∧
    decVal B < 60 ∧ decVal C < 60 ∧ decVal D < 100 ∧
    v = decVal A * MS_PER_HOUR + decVal B * MS_PER_MINUTE +
        decVal C * MS_PER_SECOND + decVal D * 10

theorem okGroup_all_digits {g : List Char} (h : okGroup g = true) :
    g.all isDigitChar = true := by
  simp only [okGroup, Bool.and_eq_true] at h
  exact h.2

theorem colon_not_mem {g : List Char} (h : okGroup g = true) : ':' ∉ g :=
  not_mem_of_all_digits (okGroup_all_digits h) (by decide)

theorem dot_not_mem {g : List Char} (h : okGroup g = true) : '.' ∉ g :=
  not_mem_of_all_digits (okGroup_all_digits h) (by decide)

/-- The executable parser agrees with the declarative pattern: it
returns `some v` exactly when the input decomposes as
`digits ':' digits ':' digits '.' digits` with 1-2 digit groups, the
range checks pass, and `v` is the combined millisecond value. -/
theorem parseGroups_eq_some_iff (a b c d : List Char) (v : Nat) :
    parseGroups a b c d = some v ↔
      okGroup a = true ∧ okGroup b = true ∧ okGroup c = true ∧ okGroup d = true ∧
      decVal b < 60 ∧ decVal c < 60 ∧ decVal d < 100 ∧
      v = decVal a * MS_PER_HOUR + decVal b * MS_PER_MINUTE +
          decVal c * MS_PER_SECOND + decVal d * 10 := by
  unfold parseGroups
  by_cases hg : (okGroup a && okGroup b && okGroup c && okGroup d) = true
  · rw [if_pos hg]
    simp only [Bool.and_eq_true] at hg
    obtain ⟨⟨⟨hga, hgb⟩, hgc⟩, hgd⟩ := hg
    by_cases hb : ((decVal b ≥ 60 ∨ decVal c ≥ 60) ∨ decVal d ≥ 100)
    · rw [if_pos (by simp only [Bool.or_eq_true, decide_eq_true_eq]; exact hb)]
      constructor
      · intro h; simp at h
      · rintro ⟨-, -, -, -, h1, h2, h3, -⟩
        rcases hb with (hb | hb) | hb <;> exact absurd hb (by omega)
    · rw [if_neg (by simp only [Bool.or_eq_true, decide_eq_true_eq]; exact hb)]
      push_neg at hb
      obtain ⟨⟨hb1, hb2⟩, hb3⟩ := hb
      constructor
      · intro h
        exact ⟨hga, hgb, hgc, hgd, hb1, hb2, hb3,
          ((Option.some.injEq _ _).mp h).symm⟩
      · rintro ⟨-, -, -, -, -, -, -, hv⟩
        exact congrArg some hv.symm
  · rw [if_neg hg]
    simp only [Bool.and_eq_true] at hg
    constructor
    · intro h; simp at h
    · rintro ⟨h1, h2, h3, h4, -⟩
      exact absurd ⟨⟨⟨h1, h2⟩, h3⟩, h4⟩ hg

theorem parseChars_eq_some_iff (cs : List Char) (v : Nat) :
    parseChars cs = some v ↔ PatternSpec cs v := by
  constructor
  · intro h
    cases h1 : splitOnChar ':' cs with
    | nil => rw [show parseChars cs = none by unfold parseChars; rw [h1]] at h; simp at h
    | cons a t1 =>
    cases t1 with
    | nil => rw [show parseChars cs = none by unfold parseChars; rw [h1]] at h; simp at h
    | cons b t2 =>
    cases t2 with
    | nil => rw [show parseChars cs = none by unfold parseChars; rw [h1]] at h; simp at h
    | cons r t3 =>
    cases t3 with
    | cons x t4 =>
      rw [show parseChars cs = none by unfold parseChars; rw [h1]] at h; simp at h
    | nil =>
      rw [show parseChars cs = parseCD a b r by unfold parseChars; rw [h1]] at h
      cases h2 : splitOnChar '.' r with
      | nil => rw [show parseCD a b r = none by unfold parseCD; rw [h2]] at h; simp at h
      | cons c t5 =>
      cases t5 with
      | nil => rw [show parseCD a b r = none by unfold parseCD; rw [h2]] at h; simp at h
      | cons d t6 =>
      cases t6 with
      | cons y t7 =>
        rw [show parseCD a b r = none by unfold parseCD; rw [h2]] at h; simp at h
      | nil =>
        rw [show parseCD a b r = parseGroups a b c d by unfold parseCD; rw [h2]] at h
        obtain ⟨hga, hgb, hgc, hgd, hb1, hb2, hb3, hv⟩ :=
          (parseGroups_eq_some_iff a b c d v).mp h
        have hcs : cs = a ++ ':' :: (b ++ ':' :: r) := by
          have := unsplit_splitOnChar ':' cs
          rw [h1] at this
          simpa [unsplit] using this.symm
        have hr : r = c ++ '.' :: d := by
          have := unsplit_splitOnChar '.' r
          rw [h2] at this
          simpa [unsplit] using this.symm
        exact ⟨a, b, c, d, by rw [hcs, hr], hga, hgb, hgc, hgd, hb1, hb2, hb3, hv⟩
  · rintro ⟨A, B, C, D, hcs, hA, hB, hC, hD, h60m, h60s, h100c, hv⟩
    have hcolR : ':' ∉ C ++ '.' :: D := by
      intro hm
      rcases List.mem_append.mp hm with hm | hm
      · exact colon_not_mem hC hm
      · rcases List.mem_cons.mp hm with hm | hm
        · exact absurd hm (by decide)
        · exact colon_not_mem hD hm
    have hs1 : splitOnChar ':' cs = A :: B :: [C ++ '.' :: D] := by
      rw [hcs, splitOnChar_append ':' A _ (colon_not_mem hA),
          splitOnChar_append ':' B _ (colon_not_mem hB),
          splitOnChar_sepFree ':' _ hcolR]
    have hs2 : splitOnChar '.' (C ++ '.' :: D) = [C, D] := by
      rw [splitOnChar_append '.' C _ (dot_not_mem hC),
          splitOnChar_sepFree '.' _ (dot_not_mem hD)]
    rw [show parseChars cs = parseCD A B (C ++ '.' :: D) by unfold parseChars; rw [hs1],
        show parseCD A B (C ++ '.' :: D) = parseGroups A B C D by unfold parseCD; rw [hs2]]
    exact (parseGroups_eq_some_iff A B C D v).mpr
      ⟨hA, hB, hC, hD, h60m, h60s, h100c, hv⟩

/-- The division/remainder cascade of `formatTime` recombines to the
original value whenever the value is a whole number of centiseconds. -/
theorem codec_arith (ms : Nat) (h10 : ms % 10 = 0) :
    (ms / 10 / 100 / 60 / 60) * MS_PER_HOUR +
    (ms / 10 / 100 / 60 % 60) * MS_PER_MINUTE +
    (ms / 10 / 100 % 60) * MS_PER_SECOND + (ms / 10 % 100) * 10 = ms := by
  simp only [MS_PER_HOUR, MS_PER_MINUTE, MS_PER_SECOND]
  omega

/-- Round trip of the codec: any whole-centisecond value below 100 hours
is reproduced exactly by `parseTime` after `msToString`. -/
theorem parseTime_msToString (ms : Nat) (h10 : ms % 10 = 0)
    (hlt : ms < 360000000) : parseTime (msToString ms) = some ms := by
  have hcs100 : ms / 10 % 100 < 100 := Nat.mod_lt _ (by norm_num)
  have hs60 : ms / 10 / 100 % 60 < 60 := Nat.mod_lt _ (by norm_num)
  have hm60 : ms / 10 / 100 / 60 % 60 < 60 := Nat.mod_lt _ (by norm_num)
  have hh100 : ms / 10 / 100 / 60 / 60 < 100 := by omega
  obtain ⟨okH, dvH, digH, wsH⟩ := padStart2_group _ hh100
  obtain ⟨okM, dvM, digM, wsM⟩ := padStart2_group _ (lt_trans hm60 (by norm_num))
  obtain ⟨okS, dvS, digS, wsS⟩ := padStart2_group _ (lt_trans hs60 (by norm_num))
  obtain ⟨okC, dvC, digC, wsC⟩ := padStart2_group _ hcs100
  have hfmt : msToChars ms =
      padStart2 (natToChars (ms / 10 / 100 / 60 / 60)) ++ ':' ::
      (padStart2 (natToChars (ms / 10 / 100 / 60 % 60)) ++ ':' ::
      (padStart2 (natToChars (ms / 10 / 100 % 60)) ++ '.' ::
       padStart2 (natToChars (ms / 10 % 100)))) := rfl
  have hws : ∀ c ∈ msToChars ms, isWsChar c = false := by
    rw [hfmt]
    intro c hc
    simp only [List.mem_append, List.mem_cons] at hc
    rcases hc with hc | hc | hc | hc | hc | hc | hc
    · simpa using List.all_eq_true.mp wsH c hc
    · subst hc; decide
    · simpa using List.all_eq_true.mp wsM c hc
    · subst hc; decide
    · simpa using List.all_eq_true.mp wsS c hc
    · subst hc; decide
    · simpa using List.all_eq_true.mp wsC c hc
  have hdata : (msToString ms).data = msToChars ms := rfl
  rw [parseTime, hdata, trimChars_eq_self hws]
  refine (parseChars_eq_some_iff _ ms).mpr
    ⟨_, _, _, _, hfmt, okH, okM, okS, okC, ?_, ?_, ?_, ?_⟩
  · rw [dvM]; exact hm60
  · rw [dvS]; exact hs60
  · rw [dvC]; exact hcs100
  · rw [dvH, dvM, dvS, dvC]
    exact (codec_arith ms h10).symm

/-! ## Isolated clock worker (worker.js)

Times (`performance.now()` instants and millisecond counts) are
modelled as integers.  `setInterval` handles are modelled as optional
identifiers drawn from a fresh-id counter, `clearInterval` as setting
the slot back to `none`. -/

/-- Messages sent from the main thread to the worker
(`{type, payload}` where `payload` and `payload.fromMs` may each be
absent).  `other` stands for any unknown `type`. -/
inductive WorkerInMsg where
  | start (payload : Option (Option Int))
  | pause
  | reset
  | getState
  | other
deriving DecidableEq, Repr

/-- Messages posted by the worker to the main thread. -/
inductive WorkerOutMsg where
  | ready
  | tick (elapsed : Int)
  | started (elapsed : Int)
  | paused (elapsed : Int)
  | resetMsg (elapsed : Int)
  | stateMsg (running : Bool) (elapsed : Int)
deriving DecidableEq, Repr

/-- Worker-local mutable state (worker.js lines 8-11), plus a counter
supplying fresh `setInterval` ids. -/
structure WorkerState where
  running : Bool
  startTime : Int
  accumulatedMs : Int
  tickInterval : Option Nat
  nextId : Nat
deriving DecidableEq, Repr

/-- Initial worker state (worker.js lines 8-11). -/
def WorkerState.initial : WorkerState :=
  { running := false, startTime := 0, accumulatedMs := 0,
    tickInterval := none, nextId := 0 }

namespace Worker

/-- `tick()` (worker.js lines 16-26): the interval callback, fired at
instant `now`. -/
def tickFire (now : Int) (st : WorkerState) : List WorkerOutMsg :=
  if ¬ st.running then []
  else [.tick (st.accumulatedMs + (now - st.startTime))]

/-- `start(fromMs)` (worker.js lines 31-45). -/
def start (now : Int) (fromMs : Int) (st : WorkerState) :
    WorkerState × List WorkerOutMsg :=
  if st.running then (st, [])
  else
    ({ running := true, accumulatedMs := fromMs, startTime := now,
       tickInterval := some st.nextId, nextId := st.nextId + 1 },
     [.started fromMs])

/-- `pause()` (worker.js lines 50-66). -/
def pause (now : Int) (st : WorkerState) : WorkerState × List WorkerOutMsg :=
  if ¬ st.running then (st, [])
  else
    let acc := st.accumulatedMs + (now - st.startTime)
    ({ st with running := false, accumulatedMs := acc, tickInterval := none },
     [.paused acc])

/-- `reset()` (worker.js lines 71-92): stop and zero, acknowledge, and
— when a run was in progress — immediately restart from zero. -/
def reset (now : Int) (st : WorkerState) : WorkerState × List WorkerOutMsg :=
  let wasRunning := st.running
  let st1 : WorkerState :=
    { st with
      running := false
      startTime := 0
      accumulatedMs := 0
      tickInterval := if st.running then none else st.tickInterval }
  if wasRunning then
    let (st2, out2) := start now 0 st1
    (st2, .resetMsg 0 :: out2)
  else (st1, [.resetMsg 0])

/-- `getState()` (worker.js lines 97-110). -/
def getState (now : Int) (st : WorkerState) : WorkerState × List WorkerOutMsg :=
  (st, [.stateMsg st.running
          (if st.running then st.accumulatedMs + (now - st.startTime)
           else st.accumulatedMs)])

/-- The worker's message listener (worker.js lines 113-136).
`start` uses `payload?.fromMs ?? accumulatedMs`. -/
def handleMessage (now : Int) (msg : WorkerInMsg) (st : WorkerState) :
    WorkerState × List WorkerOutMsg :=
  match msg with
  | .start payload => start now ((payload.bind id).getD st.accumulatedMs) st
  | .pause => pause now st
  | .reset => reset now st
  | .getState => getState now st
  | .other => (st, [])

/-- The invariant of the worker: a tick interval is scheduled exactly
while `running` is set. -/
def TickInv (st : WorkerState) : Prop := st.tickInterval ≠ none ↔ st.running = true

instance (st : WorkerState) : Decidable (TickInv st) := by
  unfold TickInv; infer_instance

end Worker

/-! ## Controller state machine (script.js)

The DOM (display text, buttons, hints) and `localStorage` writes are
external collaborators; they are modelled as emitted events or ignored.
The persisted countdown value read by `setMode` is passed in as an
explicit argument (`none` covers both a missing item and one whose
`parseInt` is `NaN`).  `requestAnimationFrame` and `setInterval`
handles are optional identifiers drawn from fresh-id counters. -/

inductive Mode where
  | stopwatch
  | countdown
deriving DecidableEq, Repr

/-- Observable outputs of a controller operation: a message posted to
the worker, the completion side effects of `handleCountdownComplete`
(announcement, pulse, and — unless muted — beep and vibration), or the
`announce('Timer reset')` of `resetTimer`. -/
inductive CtrlOut where
  | toWorker (m : WorkerInMsg)
  | completion
  | announceReset
deriving DecidableEq, Repr

/-- The controller's mutable state (script.js lines 58-69 plus the
fallback-clock variables of lines 258-260 and the `isEditing` flag of
line 432).  UI-only fields (`muted`, `theme`) belong to external
collaborators and are not modelled. -/
structure CtrlState where
  mode : Mode
  running : Bool
  elapsedMs : Int
  countdownTargetMs : Int
  countdownCompleted : Bool
  workerFallback : Bool
  animationFrameId : Option Nat
  rafNext : Nat
  fallbackStartTime : Int
  fallbackAccumulated : Int
  fallbackInterval : Option Nat
  intervalNext : Nat
  isEditing : Bool
deriving DecidableEq, Repr

/-- Initial controller state (script.js lines 58-69). -/
def CtrlState.initial : CtrlState :=
  { mode := .stopwatch
    running := false
    elapsedMs := 0
    countdownTargetMs := 0
    countdownCompleted := false
    workerFallback := false
    animationFrameId := none
    rafNext := 0
    fallbackStartTime := 0
    fallbackAccumulated := 0
    fallbackInterval := none
    intervalNext := 0
    isEditing := false }

namespace Ctrl

/-- `startRenderLoop()` (script.js lines 267-271). -/
def startRenderLoop (st : CtrlState) : CtrlState :=
  if st.animationFrameId = none then
    { st with animationFrameId := some st.rafNext, rafNext := st.rafNext + 1 }
  else st

/-- `stopRenderLoop()` (script.js lines 273-278). -/
def stopRenderLoop (st : CtrlState) : CtrlState :=
  if st.animationFrameId ≠ none then { st with animationFrameId := none }
  else st

/-- `fallbackToMainThread()` (script.js lines 262-265): the error path
only raises the fallback flag (and logs a warning). -/
def fallbackToMainThread (st : CtrlState) : CtrlState :=
  { st with workerFallback := true }

mutual

/-- `updateDisplay(ms)` (script.js lines 155-181): in countdown mode
render `max(0, target - ms)` and run the completion check; in stopwatch
mode just render.  The first argument is recursion fuel; the call depth
of the source is bounded (see the `..._stable` lemmas), so any fuel
≥ 4 computes the exact behaviour. -/
def updateDisplayF : Nat → Int → CtrlState → CtrlState × List CtrlOut
  | 0, _, st => (st, [])
  | fuel + 1, ms, st =>
    if st.mode = .countdown then
      let remaining := max 0 (st.countdownTargetMs - ms)
      if remaining = 0 ∧ st.running = true ∧ st.countdownCompleted = false then
        handleCountdownCompleteF fuel st
      else (st, [])
    else (st, [])

/-- `handleCountdownComplete()` (script.js lines 506-525): set the
completion flag, pause, then fire the completion side effects. -/
def handleCountdownCompleteF : Nat → CtrlState → CtrlState × List CtrlOut
  | 0, st => (st, [])
  | fuel + 1, st =>
    let st1 := { st with countdownCompleted := true }
    let p := pauseTimerF fuel st1
    (p.1, p.2 ++ [.completion])

/-- `pauseTimer()` (script.js lines 319-335). -/
def pauseTimerF : Nat → CtrlState → CtrlState × List CtrlOut
  | 0, st => (st, [])
  | fuel + 1, st =>
    if st.running = false then (st, [])
    else if st.workerFallback then
      let st1 := { st with running := false, fallbackAccumulated := st.elapsedMs, fallbackInterval := none }
      let st2 := stopRenderLoop st1
      updateDisplayF fuel st2.elapsedMs st2
    else (st, [.toWorker .pause])

end

def updateDisplay (ms : Int) (st : CtrlState) : CtrlState × List CtrlOut :=
  updateDisplayF 4 ms st

def pauseTimer (st : CtrlState) : CtrlState × List CtrlOut :=
  pauseTimerF 4 st

def handleCountdownComplete (st : CtrlState) : CtrlState × List CtrlOut :=
  handleCountdownCompleteF 4 st

theorem stopRenderLoop_running (st : CtrlState) :
    (stopRenderLoop st).running = st.running := by
  unfold stopRenderLoop; split <;> rfl

theorem updateDisplayF_notRunning (fuel : Nat) (ms : Int) (st : CtrlState)
    (h : st.running = false) : updateDisplayF fuel ms st = (st, []) := by
  cases fuel with
  | zero => rfl
  | succ f => simp [updateDisplayF, h]

theorem pauseTimerF_stable (fuel : Nat) (st : CtrlState) :
    pauseTimerF (fuel + 2) st = pauseTimerF 2 st := by
  show pauseTimerF (fuel + 1 + 1) st = pauseTimerF (0 + 1 + 1) st
  unfold pauseTimerF
  by_cases hr : st.running = false
  · rw [if_pos hr, if_pos hr]
  · rw [if_neg hr, if_neg hr]
    by_cases hf : st.workerFallback = true
    · rw [if_pos hf, if_pos hf]
      simp only [updateDisplayF_notRunning, stopRenderLoop_running]
    · rw [if_neg hf, if_neg hf]

theorem handleCountdownCompleteF_stable (fuel : Nat) (st : CtrlState) :
    handleCountdownCompleteF (fuel + 3) st = handleCountdownCompleteF 3 st := by
  show handleCountdownCompleteF (fuel + 2 + 1) st =
    handleCountdownCompleteF (0 + 2 + 1) st
  unfold handleCountdownCompleteF
  simp only [pauseTimerF_stable]

theorem updateDisplayF_stable (fuel : Nat) (ms : Int) (st : CtrlState) :
    updateDisplayF (fuel + 4) ms st = updateDisplayF 4 ms st := by
  show updateDisplayF (fuel + 3 + 1) ms st = updateDisplayF (0 + 3 + 1) ms st
  unfold updateDisplayF
  simp only [handleCountdownCompleteF_stable]

/-- `startTimer()` (script.js lines 287-314), invoked at instant `now`.
In worker mode it only posts `{type:'start', payload:{fromMs: elapsedMs}}`;
the `Running` transition happens on the `started` acknowledgment. -/
def startTimer (now : Int) (st : CtrlState) : CtrlState × List CtrlOut :=
  if st.running = true then (st, [])
  else
    let st1 := { st with countdownCompleted := false }
    if st1.workerFallback then
      let st2 := { st1 with
        running := true
        fallbackStartTime := now
        fallbackAccumulated := st1.elapsedMs
        fallbackInterval := some st1.intervalNext
        intervalNext := st1.intervalNext + 1 }
      (startRenderLoop st2, [])
    else
      (st1, [.toWorker (.start (some (some st1.elapsedMs)))])

/-- The fallback clock's interval callback (script.js lines 298-301). -/
def fallbackTick (now : Int) (st : CtrlState) : CtrlState :=
  { st with elapsedMs := st.fallbackAccumulated + (now - st.fallbackStartTime) }

/-- `resetTimer()` (script.js lines 340-361).  In worker mode it only
posts `{type:'reset'}`; the local state changes happen on the `reset`
acknowledgment. -/
def resetTimer (st : CtrlState) : CtrlState × List CtrlOut :=
  if st.workerFallback then
    let st1 := { st with
      fallbackInterval := if st.running = true then none else st.fallbackInterval }
    let st2 := { st1 with
      running := false
      elapsedMs := 0
      fallbackAccumulated := 0
      countdownCompleted := false }
    let st3 := stopRenderLoop st2
    let p := updateDisplay 0 st3
    (p.1, p.2 ++ [.announceReset])
  else (st, [.toWorker .reset, .announceReset])

/-- The worker `message` listener (script.js lines 204-242). -/
def handleWorkerMsg (m : WorkerOutMsg) (st : CtrlState) :
    CtrlState × List CtrlOut :=
  match m with
  | .ready => (st, [])
  | .tick e => ({ st with elapsedMs := e }, [])
  | .started e => (startRenderLoop { st with running := true, elapsedMs := e }, [])
  | .paused e =>
    let st1 := stopRenderLoop { st with running := false, elapsedMs := e }
    updateDisplay e st1
  | .resetMsg _ =>
    let st1 := stopRenderLoop
      { st with running := false, elapsedMs := 0, countdownCompleted := false }
    updateDisplay 0 st1
  | .stateMsg r e => ({ st with running := r, elapsedMs := e }, [])

/-- The worker `error` listener (script.js lines 244-247): log and call
`fallbackToMainThread()`. -/
def handleWorkerError (st : CtrlState) : CtrlState := fallbackToMainThread st

/-- One firing of `renderLoop()` (script.js lines 186-191): if running,
update the display from `state.elapsedMs` and request the next frame. -/
def renderFrame (st : CtrlState) : CtrlState × List CtrlOut :=
  if st.running = true then
    let p := updateDisplay st.elapsedMs st
    ({ p.1 with animationFrameId := some p.1.rafNext, rafNext := p.1.rafNext + 1 },
     p.2)
  else (st, [])

/-- The `visibilitychange` listener (script.js lines 753-766). -/
def visibilityChange (hidden : Bool) (st : CtrlState) :
    CtrlState × List CtrlOut :=
  if hidden then (stopRenderLoop st, [])
  else if st.running = true then (startRenderLoop st, [])
  else updateDisplay st.elapsedMs st

/-- The countdown-target block of `setMode` (script.js lines 401-417):
load the persisted value when valid and positive, then default to five
minutes when the target is still unset.  `saved` is the result of
`parseInt(localStorage.getItem('timer-countdown-value'))`, `none`
covering both a missing item and `NaN`. -/
def applyCountdownTarget (saved : Option Int) (st : CtrlState) : CtrlState :=
  let sta :=
    match saved with
    | some k => if k > 0 then { st with countdownTargetMs := k } else st
    | none => st
  if sta.countdownTargetMs = 0 then
    { sta with countdownTargetMs := ((5 * MS_PER_MINUTE : Nat) : Int) }
  else sta

/-- `setMode(mode)` (script.js lines 389-426). -/
def setMode (saved : Option Int) (mode : Mode) (st : CtrlState) :
    CtrlState × List CtrlOut :=
  if st.mode = mode then (st, [])
  else
    let p := if st.running = true then pauseTimer st else (st, [])
    let st1 := p.1
    let st2 := { st1 with mode := mode, elapsedMs := 0, countdownCompleted := false }
    let st3 := if mode = .countdown then applyCountdownTarget saved st2 else st2
    let q := updateDisplay 0 st3
    (q.1, p.2 ++ q.2)

/-- `enterEditMode()` (script.js lines 437-461): pause if running, show
the editor (DOM effects ignored). -/
def enterEditMode (st : CtrlState) : CtrlState × List CtrlOut :=
  if st.isEditing = true then (st, [])
  else
    let st1 := { st with isEditing := true }
    if st1.running = true then pauseTimer st1 else (st1, [])

/-- `exitEditMode(save)` (script.js lines 466-497) with the editor's
text passed in as `input`.  A valid value overwrites the countdown
target (also persisted, externally) or the stopwatch elapsed value; an
invalid one only shows a hint. -/
def exitEditMode (save : Bool) (input : String) (st : CtrlState) :
    CtrlState × List CtrlOut :=
  if st.isEditing = false then (st, [])
  else
    let st1 := { st with isEditing := false }
    let st2 :=
      if save then
        match parseTime input with
        | some ms =>
          if st1.mode = .countdown then
            { st1 with countdownTargetMs := (ms : Int), elapsedMs := 0 }
          else
            { st1 with elapsedMs := (ms : Int) }
        | none => st1
      else st1
    updateDisplay st2.elapsedMs st2

/-! ### Controller helper lemmas -/

theorem stopRenderLoop_elapsedMs (st : CtrlState) :
    (stopRenderLoop st).elapsedMs = st.elapsedMs := by
  unfold stopRenderLoop; split <;> rfl

theorem stopRenderLoop_countdownCompleted (st : CtrlState) :
    (stopRenderLoop st).countdownCompleted = st.countdownCompleted := by
  unfold stopRenderLoop; split <;> rfl

theorem stopRenderLoop_mode (st : CtrlState) :
    (stopRenderLoop st).mode = st.mode := by
  unfold stopRenderLoop; split <;> rfl

theorem stopRenderLoop_countdownTargetMs (st : CtrlState) :
    (stopRenderLoop st).countdownTargetMs = st.countdownTargetMs := by
  unfold stopRenderLoop; split <;> rfl

theorem startRenderLoop_running (st : CtrlState) :
    (startRenderLoop st).running = st.running := by
  unfold startRenderLoop; split <;> rfl

theorem startRenderLoop_elapsedMs (st : CtrlState) :
    (startRenderLoop st).elapsedMs = st.elapsedMs := by
  unfold startRenderLoop; split <;> rfl

theorem startRenderLoop_countdownCompleted (st : CtrlState) :
    (startRenderLoop st).countdownCompleted = st.countdownCompleted := by
  unfold startRenderLoop; split <;> rfl

theorem startRenderLoop_mode (st : CtrlState) :
    (startRenderLoop st).mode = st.mode := by
  unfold startRenderLoop; split <;> rfl

theorem startRenderLoop_countdownTargetMs (st : CtrlState) :
    (startRenderLoop st).countdownTargetMs = st.countdownTargetMs := by
  unfold startRenderLoop; split <;> rfl

/-- `updateDisplay` on a paused/idle state never mutates anything. -/
theorem updateDisplay_notRunning (ms : Int) (st : CtrlState)
    (h : st.running = false) : updateDisplay ms st = (st, []) :=
  updateDisplayF_notRunning 4 ms st h

/-- `updateDisplay` is the identity whenever the completion guard of
script.js line 168 does not hold. -/
theorem updateDisplay_eq_self (ms : Int) (st : CtrlState)
    (h : ¬(st.mode = .countdown ∧ max 0 (st.countdownTargetMs - ms) = 0 ∧
           st.running = true ∧ st.countdownCompleted = false)) :
    updateDisplay ms st = (st, []) := by
  unfold updateDisplay
  show updateDisplayF (3 + 1) ms st = (st, [])
  unfold updateDisplayF
  by_cases hm : st.mode = .countdown
  · by_cases hg : (max 0 (st.countdownTargetMs - ms) = 0 ∧ st.running = true ∧
        st.countdownCompleted = false)
    · exact absurd ⟨hm, hg.1, hg.2.1, hg.2.2⟩ h
    · rw [if_pos hm]
      show (if max 0 (st.countdownTargetMs - ms) = 0 ∧ st.running = true ∧
          st.countdownCompleted = false then handleCountdownCompleteF 3 st
          else (st, [])) = (st, [])
      rw [if_neg hg]
  · simp [hm]

/-- When the completion guard holds, `updateDisplay` runs
`handleCountdownComplete`. -/
theorem updateDisplay_fires (ms : Int) (st : CtrlState)
    (hm : st.mode = .countdown) (hrem : max 0 (st.countdownTargetMs - ms) = 0)
    (hrun : st.running = true) (hflag : st.countdownCompleted = false) :
    updateDisplay ms st = handleCountdownCompleteF 3 st := by
  unfold updateDisplay
  show updateDisplayF (3 + 1) ms st = handleCountdownCompleteF 3 st
  unfold updateDisplayF
  simp [hm, hrem, hrun, hflag]

/-- Completion handling in worker mode: set the flag, request a pause,
fire the completion side effects. -/
theorem handleCountdownComplete_worker (st : CtrlState)
    (hrun : st.running = true) (hwf : st.workerFallback = false) :
    handleCountdownCompleteF 3 st =
      ({ st with countdownCompleted := true },
       [.toWorker .pause, .completion]) := by
  show handleCountdownCompleteF (1 + 1 + 1) st = _
  unfold handleCountdownCompleteF pauseTimerF
  simp [hrun, hwf]

/-- Completion handling in fallback mode: set the flag, pause
synchronously, fire the completion side effects. -/
theorem handleCountdownComplete_fallback (st : CtrlState)
    (hrun : st.running = true) (hwf : st.workerFallback = true) :
    handleCountdownCompleteF 3 st =
      (stopRenderLoop
        { st with
          countdownCompleted := true
          running := false
          fallbackAccumulated := st.elapsedMs
          fallbackInterval := none },
       [.completion]) := by
  show handleCountdownCompleteF (1 + 1 + 1) st = _
  unfold handleCountdownCompleteF pauseTimerF
  simp [hrun, hwf, updateDisplayF_notRunning, stopRenderLoop_running]

/-- `resetTimer` in fallback mode stops, zeroes and clears
synchronously. -/
theorem resetTimer_fallback (st : CtrlState) (hwf : st.workerFallback = true) :
    (resetTimer st).1.running = false ∧
    (resetTimer st).1.elapsedMs = 0 ∧
    (resetTimer st).1.countdownCompleted = false ∧
    (resetTimer st).2 = [.announceReset] := by
  unfold resetTimer
  simp [hwf, updateDisplay_notRunning, stopRenderLoop_running,
    stopRenderLoop_elapsedMs, stopRenderLoop_countdownCompleted]

/-- `resetTimer` in worker mode only posts the reset request. -/
theorem resetTimer_worker (st : CtrlState) (hwf : st.workerFallback = false) :
    resetTimer st = (st, [.toWorker .reset, .announceReset]) := by
  unfold resetTimer
  simp [hwf]

/-- The `reset` acknowledgment handler stops, zeroes and clears. -/
theorem handleWorkerMsg_resetMsg (st : CtrlState) (e : Int) :
    (handleWorkerMsg (.resetMsg e) st).1.running = false ∧
    (handleWorkerMsg (.resetMsg e) st).1.elapsedMs = 0 ∧
    (handleWorkerMsg (.resetMsg e) st).1.countdownCompleted = false := by
  unfold handleWorkerMsg
  simp [updateDisplay_notRunning, stopRenderLoop_running,
    stopRenderLoop_elapsedMs, stopRenderLoop_countdownCompleted]

/-- `startTimer` clears the completion flag. -/
theorem startTimer_clears_flag (now : Int) (st : CtrlState)
    (hrun : st.running = false) :
    (startTimer now st).1.countdownCompleted = false := by
  unfold startTimer
  by_cases hwf : st.workerFallback = true <;>
    simp [hrun, hwf, startRenderLoop_countdownCompleted]

/-- Worker `reset` while stopped: stays stopped and acknowledges. -/
theorem worker_reset_notRunning (now : Int) (w : WorkerState)
    (h : w.running = false) :
    (Worker.handleMessage now .reset w).1.running = false ∧
    (Worker.handleMessage now .reset w).2 = [.resetMsg 0] := by
  unfold Worker.handleMessage Worker.reset
  simp [h]

/-- Worker `reset` while running: acknowledges zero and immediately
restarts from zero (worker.js lines 88-91). -/
theorem worker_reset_running (now : Int) (w : WorkerState)
    (h : w.running = true) :
    (Worker.handleMessage now .reset w).2 = [.resetMsg 0, .started 0] ∧
    (Worker.handleMessage now .reset w).1.running = true ∧
    (Worker.handleMessage now .reset w).1.accumulatedMs = 0 := by
  unfold Worker.handleMessage Worker.reset Worker.start
  simp [h]

theorem applyCountdownTarget_running (saved : Option Int) (st : CtrlState) :
    (applyCountdownTarget saved st).running = st.running := by
  unfold applyCountdownTarget
  cases saved <;> simp only [] <;> split <;> (try split) <;> rfl

theorem applyCountdownTarget_mode (saved : Option Int) (st : CtrlState) :
    (applyCountdownTarget saved st).mode = st.mode := by
  unfold applyCountdownTarget
  cases saved <;> simp only [] <;> split <;> (try split) <;> rfl

theorem applyCountdownTarget_elapsedMs (saved : Option Int) (st : CtrlState) :
    (applyCountdownTarget saved st).elapsedMs = st.elapsedMs := by
  unfold applyCountdownTarget
  cases saved <;> simp only [] <;> split <;> (try split) <;> rfl

theorem applyCountdownTarget_countdownCompleted (saved : Option Int)
    (st : CtrlState) :
    (applyCountdownTarget saved st).countdownCompleted =
      st.countdownCompleted := by
  unfold applyCountdownTarget
  cases saved <;> simp only [] <;> split <;> (try split) <;> rfl

theorem applyCountdownTarget_workerFallback (saved : Option Int)
    (st : CtrlState) :
    (applyCountdownTarget saved st).workerFallback = st.workerFallback := by
  unfold applyCountdownTarget
  cases saved <;> simp only [] <;> split <;> (try split) <;> rfl

/-- The loaded target is positive whenever the previous one was
non-negative. -/
theorem applyCountdownTarget_pos (saved : Option Int) (st : CtrlState)
    (h : 0 ≤ st.countdownTargetMs) :
    0 < (applyCountdownTarget saved st).countdownTargetMs := by
  unfold applyCountdownTarget
  cases saved with
  | none =>
    simp only []
    split
    · simp [MS_PER_MINUTE, MS_PER_SECOND]
    · omega
  | some k =>
    by_cases hk : k > 0 <;> simp only [hk, reduceIte] <;> split
    · simp [MS_PER_MINUTE, MS_PER_SECOND]
    · simpa using hk
    · simp [MS_PER_MINUTE, MS_PER_SECOND]
    · omega

/-- With no usable persisted value and no previously set target, the
target defaults to five minutes. -/
theorem applyCountdownTarget_default (st : CtrlState)
    (h : st.countdownTargetMs = 0) :
    (applyCountdownTarget none st).countdownTargetMs =
      ((5 * MS_PER_MINUTE : Nat) : Int) := by
  unfold applyCountdownTarget
  simp [h]

/-- A positive persisted value is adopted as the target. -/
theorem applyCountdownTarget_saved (k : Int) (st : CtrlState) (hk : 0 < k) :
    (applyCountdownTarget (some k) st).countdownTargetMs = k := by
  unfold applyCountdownTarget
  simp only [hk, reduceIte]
  rw [if_neg (by simpa using hk.ne')]

/-- `pauseTimer` on a running fallback session pauses synchronously. -/
theorem pauseTimer_fallback (st : CtrlState) (hrun : st.running = true)
    (hwf : st.workerFallback = true) :
    pauseTimer st =
      (stopRenderLoop
        { st with
          running := false
          fallbackAccumulated := st.elapsedMs
          fallbackInterval := none }, []) := by
  unfold pauseTimer
  rw [show (4 : Nat) = 2 + 2 from rfl, pauseTimerF_stable 2]
  show pauseTimerF (1 + 1) st = _
  unfold pauseTimerF
  simp [hrun, hwf, updateDisplayF_notRunning, stopRenderLoop_running]

/-- `pauseTimer` on a running worker-mode session only posts the pause
request. -/
theorem pauseTimer_worker (st : CtrlState) (hrun : st.running = true)
    (hwf : st.workerFallback = false) :
    pauseTimer st = (st, [.toWorker .pause]) := by
  unfold pauseTimer
  rw [show (4 : Nat) = 2 + 2 from rfl, pauseTimerF_stable 2]
  show pauseTimerF (1 + 1) st = _
  unfold pauseTimerF
  simp [hrun, hwf]

/-- `setMode` invoked while not running: switches mode, zeroes elapsed,
clears the flag, stays stopped. -/
theorem setMode_notRunning (saved : Option Int) (m : Mode) (st : CtrlState)
    (hne : ¬ st.mode = m) (hrun : st.running = false) :
    (setMode saved m st).1.countdownCompleted = false ∧
    (setMode saved m st).1.running = false ∧
    (setMode saved m st).1.elapsedMs = 0 ∧
    (setMode saved m st).1.mode = m := by
  unfold setMode
  rw [if_neg hne, if_neg (by simp [hrun])]
  by_cases hm : m = Mode.countdown
  · simp [hm, updateDisplay_notRunning, applyCountdownTarget_running,
      applyCountdownTarget_mode, applyCountdownTarget_elapsedMs,
      applyCountdownTarget_countdownCompleted, hrun]
  · simp [hm, updateDisplay_notRunning, hrun]

/-- `setMode` on a Running worker-mode session: the pause is only
requested — the session is still Running when `setMode` returns — while
mode, elapsed, flag and countdown target are updated locally. -/
theorem setMode_running_worker (saved : Option Int) (m : Mode) (st : CtrlState)
    (hne : ¬ st.mode = m) (hrun : st.running = true)
    (hwf : st.workerFallback = false) (htgt : 0 ≤ st.countdownTargetMs) :
    (setMode saved m st).2 = [.toWorker .pause] ∧
    (setMode saved m st).1.running = true ∧
    (setMode saved m st).1.mode = m ∧
    (setMode saved m st).1.elapsedMs = 0 ∧
    (setMode saved m st).1.countdownCompleted = false ∧
    (m = .countdown → saved = none → st.countdownTargetMs = 0 →
      (setMode saved m st).1.countdownTargetMs =
        ((5 * MS_PER_MINUTE : Nat) : Int)) ∧
    (∀ k : Int, m = .countdown → saved = some k → 0 < k →
      (setMode saved m st).1.countdownTargetMs = k) := by
  unfold setMode
  rw [if_neg hne, if_pos hrun, pauseTimer_worker st hrun hwf]
  by_cases hm : m = Mode.countdown
  · subst hm
    have ht := applyCountdownTarget_pos saved
      { st with mode := Mode.countdown, elapsedMs := 0, countdownCompleted := false }
      (by simpa using htgt)
    have hud : updateDisplay 0 (applyCountdownTarget saved
        { st with mode := Mode.countdown, elapsedMs := 0, countdownCompleted := false }) =
        (applyCountdownTarget saved
          { st with mode := Mode.countdown, elapsedMs := 0, countdownCompleted := false },
         []) := by
      apply updateDisplay_eq_self
      rintro ⟨-, h2, -⟩
      rw [sub_zero, max_eq_right ht.le] at h2
      exact absurd h2 ht.ne'
    simp only [reduceIte, hud]
    refine ⟨rfl, ?_, ?_, ?_, ?_, ?_, ?_⟩
    · rw [applyCountdownTarget_running]; exact hrun
    · rw [applyCountdownTarget_mode]
    · rw [applyCountdownTarget_elapsedMs]
    · rw [applyCountdownTarget_countdownCompleted]
    · intro _ hs h0
      subst hs
      rw [applyCountdownTarget_default]
      simpa using h0
    · intro k _ hs hk
      subst hs
      exact applyCountdownTarget_saved k _ hk
  · have hud : updateDisplay 0
        { st with mode := m, elapsedMs := 0, countdownCompleted := false } =
        ({ st with mode := m, elapsedMs := 0, countdownCompleted := false }, []) := by
      apply updateDisplay_eq_self
      rintro ⟨h1, -, -⟩
      exact hm h1
    simp only [hm, reduceIte, hud]
    simp [hrun]

/-- `setMode` on a Running fallback session: pauses synchronously first
(observably: the paused intermediate state still carries the old mode),
then switches mode, zeroes elapsed, clears the flag and loads the
target. -/
theorem setMode_running_fallback (saved : Option Int) (m : Mode)
    (st : CtrlState) (hne : ¬ st.mode = m) (hrun : st.running = true)
    (hwf : st.workerFallback = true) :
    (pauseTimer st).1.running = false ∧
    (pauseTimer st).1.mode = st.mode ∧
    (setMode saved m st).2 = [] ∧
    (setMode saved m st).1.running = false ∧
    (setMode saved m st).1.mode = m ∧
    (setMode saved m st).1.elapsedMs = 0 ∧
    (setMode saved m st).1.countdownCompleted = false := by
  have hp := pauseTimer_fallback st hrun hwf
  have h1 : (pauseTimer st).1.running = false := by
    rw [hp]; simp [stopRenderLoop_running]
  have h2 : (pauseTimer st).1.mode = st.mode := by
    rw [hp]; simp [stopRenderLoop_mode]
  refine ⟨h1, h2, ?_, ?_, ?_, ?_, ?_⟩ <;>
  · unfold setMode
    rw [if_neg hne, if_pos hrun, hp]
    by_cases hm : m = Mode.countdown <;>
      simp [hm, updateDisplay_notRunning, applyCountdownTarget_running,
        applyCountdownTarget_mode, applyCountdownTarget_elapsedMs,
        applyCountdownTarget_countdownCompleted, stopRenderLoop_running,
        stopRenderLoop_mode]

/-- `pauseTimer` never changes the countdown target. -/
theorem pauseTimer_countdownTargetMs (st : CtrlState) :
    (pauseTimer st).1.countdownTargetMs = st.countdownTargetMs := by
  unfold pauseTimer
  have hs : pauseTimerF 4 st = pauseTimerF 2 st := pauseTimerF_stable 2 st
  rw [hs]
  show (pauseTimerF (1 + 1) st).1.countdownTargetMs = st.countdownTargetMs
  unfold pauseTimerF
  by_cases hr : st.running = false
  · simp [hr]
  · by_cases hwf : st.workerFallback = true <;>
      simp [hr, hwf, updateDisplayF_notRunning, stopRenderLoop_running,
        stopRenderLoop_countdownTargetMs]

/-- The `paused` acknowledgment freezes the reported elapsed value and
leaves Running. -/
theorem handleWorkerMsg_paused (st : CtrlState) (e : Int) :
    (handleWorkerMsg (.paused e) st).1.running = false ∧
    (handleWorkerMsg (.paused e) st).1.elapsedMs = e := by
  unfold handleWorkerMsg
  simp [updateDisplay_notRunning, stopRenderLoop_running,
    stopRenderLoop_elapsedMs]

/-- `setMode` into countdown loads the persisted target when it is a
positive value and defaults to five minutes when none is set. -/
theorem setMode_loads_target (saved : Option Int) (m : Mode) (st : CtrlState)
    (hne : ¬ st.mode = m) :
    (m = .countdown → saved = none → st.countdownTargetMs = 0 →
       (setMode saved m st).1.countdownTargetMs =
         ((5 * MS_PER_MINUTE : Nat) : Int)) ∧
    (∀ k : Int, m = .countdown → saved = some k → 0 < k →
       (setMode saved m st).1.countdownTargetMs = k) := by
  have hst1 : (if st.running = true then pauseTimer st else (st, [])).1.countdownTargetMs
      = st.countdownTargetMs := by
    split
    · exact pauseTimer_countdownTargetMs st
    · rfl
  constructor
  · intro hcd hs h0
    subst hcd
    subst hs
    unfold setMode
    rw [if_neg hne]
    have h0' : ({ (if st.running = true then pauseTimer st else (st, [])).1 with
        mode := Mode.countdown, elapsedMs := 0,
        countdownCompleted := false } : CtrlState).countdownTargetMs = 0 := by
      simpa [hst1] using h0
    have hd := applyCountdownTarget_default _ h0'
    have hud := updateDisplay_eq_self 0
      (applyCountdownTarget none
        { (if st.running = true then pauseTimer st else (st, [])).1 with
          mode := Mode.countdown, elapsedMs := 0, countdownCompleted := false })
      (by
        rintro ⟨-, hx, -⟩
        rw [sub_zero, hd] at hx
        norm_num [MS_PER_MINUTE, MS_PER_SECOND] at hx)
    simp only [reduceIte, hud]
    exact hd
  · intro k hcd hs hk
    subst hcd
    subst hs
    unfold setMode
    rw [if_neg hne]
    have hd := applyCountdownTarget_saved k
      ({ (if st.running = true then pauseTimer st else (st, [])).1 with
        mode := Mode.countdown, elapsedMs := 0,
        countdownCompleted := false } : CtrlState) hk
    have hud := updateDisplay_eq_self 0
      (applyCountdownTarget (some k)
        { (if st.running = true then pauseTimer st else (st, [])).1 with
          mode := Mode.countdown, elapsedMs := 0, countdownCompleted := false })
      (by
        rintro ⟨-, hx, -⟩
        rw [sub_zero, hd, max_eq_right hk.le] at hx
        exact absurd hx hk.ne')
    simp only [reduceIte, hud]
    exact hd

end Ctrl

/-! ## Claim theorems -/

/-- A controller in worker mode that has started a run and received the
`started` acknowledgment — a Running session on the Isolated Clock. -/
def c1run : CtrlState :=
  (Ctrl.handleWorkerMsg (.started 0) (Ctrl.startTimer 0 CtrlState.initial).1).1

/-- The corresponding running worker. -/
def w1run : WorkerState :=
  (Worker.handleMessage 0 (.start (some (some 0))) WorkerState.initial).1

/-- A Running countdown session (worker mode, target 5000 ms). -/
def cdRun : CtrlState :=
  { CtrlState.initial with
    mode := .countdown
    running := true
    countdownTargetMs := 5000 }

/-- C1 counterexample: resetting a Running worker-mode session does not
leave it Idle.  The worker acknowledges the reset and immediately
restarts from zero (worker.js lines 88-91), so after the controller
processes the two acknowledgments the session is Running again — the
run auto-resumed, contradicting the claim for the Isolated Clock
variant in the Running state. -/
theorem C1_reset_counterexample :
    c1run.running = true ∧ c1run.workerFallback = false ∧
    (Ctrl.resetTimer c1run).2 = [.toWorker .reset, .announceReset] ∧
    (Worker.handleMessage 100 .reset w1run).2 = [.resetMsg 0, .started 0] ∧
    (Worker.handleMessage 100 .reset w1run).1.running = true ∧
    (Ctrl.handleWorkerMsg (.started 0)
       (Ctrl.handleWorkerMsg (.resetMsg 0) (Ctrl.resetTimer c1run).1).1).1.running
      = true := by
  decide

/-- C1 (amended): `reset` always zeroes `elapsedMs` and clears
`completedFlag`; with the Fallback Clock — and with the Isolated Clock
whenever the worker is not running — the session is left Idle; but with
the Isolated Clock while a run is in progress, the worker acknowledges
the reset and immediately restarts from zero, so the session resumes
Running at 0 rather than staying Idle. -/
theorem C1_reset_amended :
    (∀ st : CtrlState, st.workerFallback = true →
       (Ctrl.resetTimer st).1.running = false ∧
       (Ctrl.resetTimer st).1.elapsedMs = 0 ∧
       (Ctrl.resetTimer st).1.countdownCompleted = false ∧
       (Ctrl.resetTimer st).2 = [.announceReset]) ∧
    (∀ st : CtrlState, st.workerFallback = false →
       Ctrl.resetTimer st = (st, [.toWorker .reset, .announceReset])) ∧
    (∀ (now : Int) (w : WorkerState), w.running = false →
       (Worker.handleMessage now .reset w).1.running = false ∧
       (Worker.handleMessage now .reset w).2 = [.resetMsg 0]) ∧
    (∀ (st : CtrlState) (e : Int),
       (Ctrl.handleWorkerMsg (.resetMsg e) st).1.running = false ∧
       (Ctrl.handleWorkerMsg (.resetMsg e) st).1.elapsedMs = 0 ∧
       (Ctrl.handleWorkerMsg (.resetMsg e) st).1.countdownCompleted = false) ∧
    (∀ (now : Int) (w : WorkerState), w.running = true →
       (Worker.handleMessage now .reset w).2 = [.resetMsg 0, .started 0] ∧
       (Worker.handleMessage now .reset w).1.running = true ∧
       (Worker.handleMessage now .reset w).1.accumulatedMs = 0) :=
  ⟨Ctrl.resetTimer_fallback, Ctrl.resetTimer_worker,
   Ctrl.worker_reset_notRunning, Ctrl.handleWorkerMsg_resetMsg,
   Ctrl.worker_reset_running⟩

/-- C1 witness: a concrete fallback-mode session (Running, elapsed 777,
completed flag set) is reset to Idle/0/cleared, and a concrete running
worker is still running after processing `reset`. -/
theorem C1_reset_amended_witness :
    (Ctrl.resetTimer
       { CtrlState.initial with
         workerFallback := true
         running := true
         elapsedMs := 777
         countdownCompleted := true
         fallbackInterval := some 0
         animationFrameId := some 0 }).1.running = false ∧
    (Ctrl.resetTimer
       { CtrlState.initial with
         workerFallback := true
         running := true
         elapsedMs := 777
         countdownCompleted := true
         fallbackInterval := some 0
         animationFrameId := some 0 }).1.elapsedMs = 0 ∧
    (Worker.handleMessage 100 .reset w1run).1.running = true :=
  ⟨(C1_reset_amended.1 _ rfl).1, (C1_reset_amended.1 _ rfl).2.1,
   (C1_reset_amended.2.2.2.2 100 w1run (by decide)).2.1⟩

/-- C2: the Running-to-zero transition of a countdown fires the
completion event exactly once: it sets `completedFlag` (blocking any
re-firing while the flag is set), emits the event once, and implicitly
pauses the clock — synchronously in fallback mode, via a pause request
to the worker in worker mode; the flag is cleared again only by a
fresh start, a reset (directly in fallback mode, via the reset
acknowledgment in worker mode), or a mode change. -/
theorem C2_completion_fires_once (st : CtrlState) (ms : Int)
    (hm : st.mode = .countdown) (hrun : st.running = true)
    (hflag : st.countdownCompleted = false)
    (hrem : max 0 (st.countdownTargetMs - ms) = 0) :
    ((Ctrl.updateDisplay ms st).1.countdownCompleted = true) ∧
    (st.workerFallback = true →
       (Ctrl.updateDisplay ms st).2 = [.completion] ∧
       (Ctrl.updateDisplay ms st).1.running = false) ∧
    (st.workerFallback = false →
       (Ctrl.updateDisplay ms st).2 = [.toWorker .pause, .completion]) ∧
    (∀ (ms' : Int) (st' : CtrlState), st'.countdownCompleted = true →
       Ctrl.updateDisplay ms' st' = (st', [])) ∧
    (∀ (now : Int) (st' : CtrlState), st'.running = false →
       (Ctrl.startTimer now st').1.countdownCompleted = false) ∧
    (∀ st' : CtrlState, st'.workerFallback = true →
       (Ctrl.resetTimer st').1.countdownCompleted = false) ∧
    (∀ (st' : CtrlState) (e : Int),
       (Ctrl.handleWorkerMsg (.resetMsg e) st').1.countdownCompleted = false) ∧
    (∀ (saved : Option Int) (m : Mode) (st' : CtrlState), ¬ st'.mode = m →
       st'.running = false →
       (Ctrl.setMode saved m st').1.countdownCompleted = false) := by
  have hfire := Ctrl.updateDisplay_fires ms st hm hrem hrun hflag
  refine ⟨?_, ?_, ?_, ?_, ?_, ?_, ?_, ?_⟩
  · by_cases hwf : st.workerFallback = true
    · rw [hfire, Ctrl.handleCountdownComplete_fallback st hrun hwf]
      simp [Ctrl.stopRenderLoop_countdownCompleted]
    · rw [hfire, Ctrl.handleCountdownComplete_worker st hrun
        (by simpa using hwf)]
  · intro hwf
    rw [hfire, Ctrl.handleCountdownComplete_fallback st hrun hwf]
    simp [Ctrl.stopRenderLoop_running]
  · intro hwf
    rw [hfire, Ctrl.handleCountdownComplete_worker st hrun hwf]
  · intro ms' st' hc
    exact Ctrl.updateDisplay_eq_self ms' st' (by simp [hc])
  · exact fun now st' h => Ctrl.startTimer_clears_flag now st' h
  · exact fun st' h => (Ctrl.resetTimer_fallback st' h).2.2.1
  · exact fun st' e => (Ctrl.handleWorkerMsg_resetMsg st' e).2.2
  · exact fun saved m st' hne h => (Ctrl.setMode_notRunning saved m st' hne h).1

/-- C2 witness: at a concrete countdown session (worker mode, target
5000, reaching elapsed 6000) the completion fires once, the flag set by
it suppresses a second evaluation, and a fresh start clears it. -/
theorem C2_completion_fires_once_witness :
    (Ctrl.updateDisplay 6000 cdRun).1.countdownCompleted = true ∧
    (Ctrl.updateDisplay 6000 cdRun).2 = [.toWorker .pause, .completion] ∧
    Ctrl.updateDisplay 7000 (Ctrl.updateDisplay 6000 cdRun).1 =
      ((Ctrl.updateDisplay 6000 cdRun).1, []) ∧
    (Ctrl.startTimer 5
      { cdRun with
        running := false
        countdownCompleted := true }).1.countdownCompleted = false := by
  have h := C2_completion_fires_once cdRun 6000 rfl rfl rfl (by decide)
  exact ⟨h.1, h.2.2.1 rfl, h.2.2.2.1 7000 _ h.1,
    h.2.2.2.2.1 5 _ rfl⟩

/-- C3 counterexample: an authoritative elapsed update (a worker `tick`
message carrying elapsed 6000 against target 5000) arrives while all of
the claim's firing conditions hold, yet no completion transition
happens: the flag stays `false`, nothing is emitted, and the session
remains Running — the completion check is not evaluated on elapsed
updates, only in the display path. -/
theorem C3_tick_no_completion_counterexample :
    cdRun.mode = .countdown ∧ cdRun.running = true ∧
    cdRun.countdownCompleted = false ∧ cdRun.countdownTargetMs - 6000 ≤ 0 ∧
    (Ctrl.handleWorkerMsg (.tick 6000) cdRun).1.countdownCompleted = false ∧
    (Ctrl.handleWorkerMsg (.tick 6000) cdRun).2 = [] ∧
    (Ctrl.handleWorkerMsg (.tick 6000) cdRun).1.running = true := by
  decide

/-- C3 (amended): the completion check lives in the display-update path,
not in the elapsed-update path: a worker `tick` only records
`elapsedMs` and never fires anything, while a render frame (running
while the surface is visible) evaluates the check and fires the
completion — so completion firing does depend on render cadence and
does not happen while rendering is suspended. -/
theorem C3_completion_checked_in_render_path (st : CtrlState)
    (hm : st.mode = .countdown) (hrun : st.running = true)
    (hflag : st.countdownCompleted = false)
    (hrem : max 0 (st.countdownTargetMs - st.elapsedMs) = 0) :
    (∀ (st' : CtrlState) (e' : Int),
       Ctrl.handleWorkerMsg (.tick e') st' = ({ st' with elapsedMs := e' }, [])) ∧
    (Ctrl.renderFrame st).1.countdownCompleted = true ∧
    (st.workerFallback = false →
       (Ctrl.renderFrame st).2 = [.toWorker .pause, .completion]) ∧
    (st.workerFallback = true → (Ctrl.renderFrame st).2 = [.completion]) := by
  have hfire := Ctrl.updateDisplay_fires st.elapsedMs st hm hrem hrun hflag
  refine ⟨fun st' e' => rfl, ?_, ?_, ?_⟩
  · by_cases hwf : st.workerFallback = true
    · rw [Ctrl.handleCountdownComplete_fallback st hrun hwf] at hfire
      simp [Ctrl.renderFrame, hrun, hfire, Ctrl.stopRenderLoop_countdownCompleted]
    · rw [Ctrl.handleCountdownComplete_worker st hrun (by simpa using hwf)] at hfire
      simp [Ctrl.renderFrame, hrun, hfire]
  · intro hwf
    rw [Ctrl.handleCountdownComplete_worker st hrun hwf] at hfire
    simp [Ctrl.renderFrame, hrun, hfire]
  · intro hwf
    rw [Ctrl.handleCountdownComplete_fallback st hrun hwf] at hfire
    simp [Ctrl.renderFrame, hrun, hfire]

/-- C3 witness: at a concrete overdue countdown session, a tick is
absorbed without effect while a render frame fires the completion. -/
theorem C3_completion_checked_in_render_path_witness :
    Ctrl.handleWorkerMsg (.tick 9999) { cdRun with elapsedMs := 6000 } =
      ({ cdRun with elapsedMs := 9999 }, []) ∧
    (Ctrl.renderFrame { cdRun with elapsedMs := 6000 }).1.countdownCompleted
      = true ∧
    (Ctrl.renderFrame { cdRun with elapsedMs := 6000 }).2 =
      [.toWorker .pause, .completion] := by
  have h := C3_completion_checked_in_render_path
    { cdRun with elapsedMs := 6000 } rfl rfl rfl (by decide)
  exact ⟨h.1 _ 9999, h.2.1, h.2.2.1 rfl⟩

/-- C4: a runtime fault of the worker while a run is active does NOT
re-establish the session safely: `fallbackToMainThread` only raises the
`workerFallback` flag, so the session stays `Running` with no fallback
interval scheduled and no replay of the last elapsed value — exactly
the inconsistent state ("Running with no active Clock Source") the
specification forbids.  Evaluated at the failing input `c1run` (worker
mode, Running). -/
theorem C4_runtime_fault_leaves_inconsistent_state :
    c1run.running = true ∧ c1run.workerFallback = false ∧
    (Ctrl.handleWorkerError c1run).running = true ∧
    (Ctrl.handleWorkerError c1run).workerFallback = true ∧
    (Ctrl.handleWorkerError c1run).fallbackInterval = none ∧
    (Ctrl.handleWorkerError c1run).elapsedMs = c1run.elapsedMs ∧
    (∀ st : CtrlState,
       Ctrl.handleWorkerError st = { st with workerFallback := true }) :=
  ⟨by decide, by decide, by decide, by decide, by decide, by decide,
   fun _ => rfl⟩

/-- C5: for every `ms` in the codec's representable range — the whole
centisecond counts below 100 hours, i.e. the values `format` renders
into the `hh:mm:ss.cc` shape that `parse` accepts — `parse (format ms)`
returns exactly `ms`: `formatTime`/`msToString` and `parseTime` are
exact inverses on every such value. -/
theorem C5_parse_format_roundtrip (ms : Nat) (h10 : ms % 10 = 0)
    (hlt : ms < 360000000) : parseTime (msToString ms) = some ms :=
  parseTime_msToString ms h10 hlt

/-- C5 witness: the round trip at the spec's own example value
`01:02:03.45` = 3723450 ms. -/
theorem C5_parse_format_roundtrip_witness :
    3723450 % 10 = 0 ∧ 3723450 < 360000000 ∧
    parseTime (msToString 3723450) = some 3723450 :=
  ⟨by decide, by decide, C5_parse_format_roundtrip 3723450 (by decide) (by decide)⟩

/-- C6: `parseTime` succeeds exactly on the strings whose trimmed form
decomposes as `H{1,2}:M{1,2}:S{1,2}.C{1,2}` with minutes < 60,
seconds < 60 and centiseconds < 100, returning
`hours*3600000 + minutes*60000 + seconds*1000 + centiseconds*10`; it
returns `none` on every other string — in particular on
`"00:60:00.00"`, `"00:00:60.00"` and `"abc"` — while the single-digit
form `"1:2:3.4"` is accepted. -/
theorem C6_parse_strict_pattern :
    (∀ (s : String) (v : Nat),
       parseTime s = some v ↔ PatternSpec (trimChars s.data) v) ∧
    parseTime "1:2:3.4" = some 3723040 ∧
    parseTime "00:60:00.00" = none ∧
    parseTime "00:00:60.00" = none ∧
    parseTime "abc" = none :=
  ⟨fun _ v => parseChars_eq_some_iff _ v, by decide, by decide, by decide, by decide⟩

/-- C9: in the worker, "a tick interval is scheduled iff `running`"
holds initially and is preserved by processing any message; moreover a
`start` while already running is a complete no-op (no second timing
loop can be created). -/
theorem C9_worker_tick_invariant :
    Worker.TickInv WorkerState.initial ∧
    (∀ (now : Int) (msg : WorkerInMsg) (st : WorkerState),
       Worker.TickInv st → Worker.TickInv (Worker.handleMessage now msg st).1) ∧
    (∀ (now : Int) (p : Option (Option Int)) (st : WorkerState),
       st.running = true → Worker.handleMessage now (.start p) st = (st, [])) := by
  refine ⟨by decide, ?_, ?_⟩
  · intro now msg st hinv
    unfold Worker.TickInv at hinv ⊢
    cases msg with
    | start p =>
      unfold Worker.handleMessage Worker.start
      by_cases hr : st.running = true
      · simp [hr, hinv]
      · simp [hr]
    | pause =>
      unfold Worker.handleMessage Worker.pause
      by_cases hr : st.running = true
      · simp [hr]
      · simp [hr, hinv]
    | reset =>
      unfold Worker.handleMessage Worker.reset Worker.start
      by_cases hr : st.running = true
      · simp [hr]
      · simp [hr] at hinv ⊢
        exact hinv
    | getState => unfold Worker.handleMessage Worker.getState; exact hinv
    | other => exact hinv
  · intro now p st hr
    unfold Worker.handleMessage Worker.start
    simp [hr]

/-- C9 witness: the invariant holds after pausing a concrete running
worker, and a duplicate `start` on it is a no-op. -/
theorem C9_worker_tick_invariant_witness :
    Worker.TickInv WorkerState.initial ∧
    Worker.TickInv (Worker.handleMessage 5 .pause
      { running := true, startTime := 2, accumulatedMs := 3,
        tickInterval := some 0, nextId := 1 }).1 ∧
    Worker.handleMessage 7 (.start none)
      { running := true, startTime := 2, accumulatedMs := 3,
        tickInterval := some 0, nextId := 1 } =
      ({ running := true, startTime := 2, accumulatedMs := 3,
         tickInterval := some 0, nextId := 1 }, []) :=
  ⟨C9_worker_tick_invariant.1,
   C9_worker_tick_invariant.2.1 5 .pause _ (by decide),
   C9_worker_tick_invariant.2.2 7 none _ (by decide)⟩

/-- C10: a `start` message with no payload, or whose payload omits
`fromMs`, starts from the worker's current `accumulatedMs`: a worker
paused at elapsed `e` acknowledges `started` with elapsed `e`, becomes
running with `accumulatedMs = e` and `startTime = now`, and a later
tick at instant `t` reports `e + (t - now)`. -/
theorem C10_start_resumes_from_accumulated (now e : Int)
    (p : Option (Option Int)) (st : WorkerState)
    (hrun : st.running = false) (hacc : st.accumulatedMs = e)
    (hp : p.bind id = none) :
    (Worker.handleMessage now (.start p) st).2 = [.started e] ∧
    (Worker.handleMessage now (.start p) st).1.running = true ∧
    (Worker.handleMessage now (.start p) st).1.accumulatedMs = e ∧
    (Worker.handleMessage now (.start p) st).1.startTime = now ∧
    (∀ t : Int, Worker.tickFire t (Worker.handleMessage now (.start p) st).1 =
       [.tick (e + (t - now))]) := by
  have hp' : (p.bind fun a => a) = none := hp
  simp [Worker.handleMessage, Worker.start, Worker.tickFire, hp', hrun, hacc]

/-- C10 witness: a worker paused at 1234 ms restarted with an empty
payload at instant 50 acknowledges `started 1234` and a tick at
instant 80 reports 1264. -/
theorem C10_start_resumes_from_accumulated_witness :
    (Worker.handleMessage 50 (.start none)
      { running := false, startTime := 0, accumulatedMs := 1234,
        tickInterval := none, nextId := 3 }).2 = [.started 1234] ∧
    Worker.tickFire 80 (Worker.handleMessage 50 (.start none)
      { running := false, startTime := 0, accumulatedMs := 1234,
        tickInterval := none, nextId := 3 }).1 = [.tick 1264] :=
  ⟨(C10_start_resumes_from_accumulated 50 1234 none _ (by decide) (by decide)
      (by decide)).1,
   (C10_start_resumes_from_accumulated 50 1234 none _ (by decide) (by decide)
      (by decide)).2.2.2.2 80⟩

/-- C7 counterexample: calling `setMode` with a new mode on a Running
worker-mode session completes the whole mode switch (mode changed,
elapsed zeroed) with `runState` still Running — the session does not
transition to Paused before the mode switch completes; only the later
`paused` acknowledgment pauses it. -/
theorem C7_setMode_counterexample :
    c1run.running = true ∧ c1run.workerFallback = false ∧
    c1run.mode = .stopwatch ∧
    (Ctrl.setMode none .countdown c1run).1.mode = .countdown ∧
    (Ctrl.setMode none .countdown c1run).1.elapsedMs = 0 ∧
    (Ctrl.setMode none .countdown c1run).1.running = true := by
  decide

/-- C7 (amended): `setMode` with a new mode while Running pauses first
only in the Fallback Clock variant (there the paused intermediate state
still carries the old mode, and the final state is Paused); in the
Isolated Clock variant it merely posts a pause request and completes
with the session still Running — Paused is reached only when the
worker's acknowledgment is processed.  In both variants the mode is
switched, `elapsedMs` zeroed and `completedFlag` cleared locally, and
switching into Countdown loads `targetMs` from the persisted value or
defaults to 5 minutes (300000 ms) when none is set. -/
theorem C7_setMode_amended (saved : Option Int) (m : Mode) (st : CtrlState)
    (hne : ¬ st.mode = m) (hrun : st.running = true)
    (htgt : 0 ≤ st.countdownTargetMs) :
    (st.workerFallback = true →
       (Ctrl.pauseTimer st).1.running = false ∧
       (Ctrl.pauseTimer st).1.mode = st.mode ∧
       (Ctrl.setMode saved m st).1.running = false ∧
       (Ctrl.setMode saved m st).1.mode = m ∧
       (Ctrl.setMode saved m st).1.elapsedMs = 0 ∧
       (Ctrl.setMode saved m st).1.countdownCompleted = false) ∧
    (st.workerFallback = false →
       (Ctrl.setMode saved m st).2 = [.toWorker .pause] ∧
       (Ctrl.setMode saved m st).1.running = true ∧
       (Ctrl.setMode saved m st).1.mode = m ∧
       (Ctrl.setMode saved m st).1.elapsedMs = 0 ∧
       (Ctrl.setMode saved m st).1.countdownCompleted = false ∧
       (∀ e : Int, (Ctrl.handleWorkerMsg (.paused e)
          (Ctrl.setMode saved m st).1).1.running = false)) ∧
    (m = .countdown → saved = none → st.countdownTargetMs = 0 →
       (Ctrl.setMode saved m st).1.countdownTargetMs =
         ((5 * MS_PER_MINUTE : Nat) : Int)) ∧
    (∀ k : Int, m = .countdown → saved = some k → 0 < k →
       (Ctrl.setMode saved m st).1.countdownTargetMs = k) := by
  refine ⟨?_, ?_, (Ctrl.setMode_loads_target saved m st hne).1,
    (Ctrl.setMode_loads_target saved m st hne).2⟩
  · intro hwf
    obtain ⟨p1, p2, s1, s2, s3, s4⟩ :=
      Ctrl.setMode_running_fallback saved m st hne hrun hwf
    exact ⟨p1, p2, s2, s3, s4.1, s4.2⟩
  · intro hwf
    obtain ⟨o1, o2, o3, o4, o5, -, -⟩ :=
      Ctrl.setMode_running_worker saved m st hne hrun hwf htgt
    exact ⟨o1, o2, o3, o4, o5,
      fun e => (Ctrl.handleWorkerMsg_paused _ e).1⟩

/-- C7 witness: at the concrete Running worker-mode session `c1run`
(no persisted value, target unset), switching to countdown posts the
pause request, leaves the session Running with mode switched and
elapsed zeroed, defaults the target to 300000 ms, and the later
`paused` acknowledgment yields Paused. -/
theorem C7_setMode_amended_witness :
    (Ctrl.setMode none .countdown c1run).2 = [.toWorker .pause] ∧
    (Ctrl.setMode none .countdown c1run).1.running = true ∧
    (Ctrl.setMode none .countdown c1run).1.countdownTargetMs = 300000 ∧
    (Ctrl.handleWorkerMsg (.paused 1234)
       (Ctrl.setMode none .countdown c1run).1).1.running = false := by
  have h := C7_setMode_amended none .countdown c1run (by decide) (by decide)
    (by decide)
  exact ⟨(h.2.1 rfl).1, (h.2.1 rfl).2.1, h.2.2.1 rfl rfl (by decide),
    (h.2.1 rfl).2.2.2.2.2 1234⟩

/-- C8: a time-edit submission rejected by `parseTime` mutates no
session field (mode, runState, elapsedMs, targetMs, completedFlag —
only the editing flag is dropped); an accepted one overwrites exactly
`elapsedMs` in Stopwatch mode, and in Countdown mode overwrites
`targetMs` and zeroes `elapsedMs`; and an edit request during a run
pauses first (synchronously in fallback mode, via a pause request in
worker mode). -/
theorem C8_edit_frame_effect (st : CtrlState) (input : String)
    (hedit : st.isEditing = true) (hrun : st.running = false) :
    (parseTime input = none →
       Ctrl.exitEditMode true input st = ({ st with isEditing := false }, [])) ∧
    (∀ ms : Nat, parseTime input = some ms → st.mode = .stopwatch →
       Ctrl.exitEditMode true input st =
         ({ st with isEditing := false, elapsedMs := (ms : Int) }, [])) ∧
    (∀ ms : Nat, parseTime input = some ms → st.mode = .countdown →
       Ctrl.exitEditMode true input st =
         ({ st with
            isEditing := false
            countdownTargetMs := (ms : Int)
            elapsedMs := 0 }, [])) ∧
    (∀ st' : CtrlState, st'.isEditing = false → st'.running = true →
       (st'.workerFallback = true →
          (Ctrl.enterEditMode st').1.running = false) ∧
       (st'.workerFallback = false →
          (Ctrl.enterEditMode st').2 = [.toWorker .pause])) := by
  refine ⟨?_, ?_, ?_, ?_⟩
  · intro hnone
    unfold Ctrl.exitEditMode
    simp [hedit, hnone, Ctrl.updateDisplay_notRunning, hrun]
  · intro ms hsome hmode
    unfold Ctrl.exitEditMode
    simp [hedit, hsome, hmode, Ctrl.updateDisplay_notRunning, hrun]
  · intro ms hsome hmode
    unfold Ctrl.exitEditMode
    simp [hedit, hsome, hmode, Ctrl.updateDisplay_notRunning, hrun]
  · intro st' hedit' hrun'
    constructor
    · intro hwf
      unfold Ctrl.enterEditMode
      rw [if_neg (by simp [hedit'])]
      rw [if_pos (show ({ st' with isEditing := true } : CtrlState).running = true
        from hrun')]
      rw [Ctrl.pauseTimer_fallback { st' with isEditing := true } hrun' hwf]
      simp [Ctrl.stopRenderLoop_running]
    · intro hwf
      unfold Ctrl.enterEditMode
      rw [if_neg (by simp [hedit'])]
      rw [if_pos (show ({ st' with isEditing := true } : CtrlState).running = true
        from hrun')]
      rw [Ctrl.pauseTimer_worker { st' with isEditing := true } hrun' hwf]

/-- C8 witness: at a concrete Idle editing session with elapsed 42,
the invalid input `"abc"` changes nothing, the valid input
`"01:02:03.45"` overwrites exactly the stopwatch elapsed value, and a
concrete running worker-mode session entering edit mode posts a pause
request. -/
theorem C8_edit_frame_effect_witness :
    Ctrl.exitEditMode true "abc"
      { CtrlState.initial with isEditing := true, elapsedMs := 42 } =
      ({ CtrlState.initial with isEditing := false, elapsedMs := 42 }, []) ∧
    Ctrl.exitEditMode true "01:02:03.45"
      { CtrlState.initial with isEditing := true, elapsedMs := 42 } =
      ({ CtrlState.initial with isEditing := false, elapsedMs := 3723450 }, []) ∧
    (Ctrl.enterEditMode c1run).2 = [.toWorker .pause] := by
  have h := C8_edit_frame_effect
    { CtrlState.initial with isEditing := true, elapsedMs := 42 } "abc"
    rfl rfl
  have h2 := C8_edit_frame_effect
    { CtrlState.initial with isEditing := true, elapsedMs := 42 } "01:02:03.45"
    rfl rfl
  refine ⟨h.1 (by decide), ?_, (h2.2.2.2 c1run (by decide) (by decide)).2 (by decide)⟩
  have := h2.2.1 3723450 (by decide) rfl
  simpa using this

end MinimalTimer
